import Mathlib

/-!
Verification of the technical-indicator and signal-fusion core of the
Stock-Market-Trend-Prediction backend.

The Python source is shallowly embedded over `ℚ`:
* `calculate_rsi` — `IndicatorCalculator.calculate_rsi` (indicators/calculator.py)
* `analyzePatterns`, `scoreContrib` — `PatchTSTPredictor._analyze_patterns`
  (models/patchtst_predictor.py); this is Scorer A
* `featuresB`, `ruleBasedPrediction`, `lgbmPredict` — `LightGBMClassifier`
  (models/lightgbm_classifier.py); this is Scorer B
* `fuseCore`, `hybridPredict` — `HybridPredictor.predict` (models/hybrid_decision.py)
* `assess_risk`, `generateWarnings` — api/routes/prediction.py
* `...Checked` variants thread every division of the source through `safeDiv`
  so that absence of division-by-zero is a provable statement.

Python `round(x, n)` is modelled by `roundTo n`; Python truthiness tests on
numbers (`if rsi:`) are modelled as `≠ 0`.
-/

namespace StockTrend

/-- Rounding to `n` decimal places, the model of Python `round(x, n)`.
(`round` here rounds half up while Python rounds half to even; the two agree
everywhere except at exact ties, and no property below depends on a tie.) -/
def roundTo (n : ℕ) (q : ℚ) : ℚ := ((round (q * 10 ^ n) : ℤ) : ℚ) / 10 ^ n

/-- Arithmetic mean of a list, the model of `np.mean` (0 on the empty list). -/
def meanQ (l : List ℚ) : ℚ := l.sum / (l.length : ℚ)

/-- Successive differences, the model of `np.diff`. -/
def diffs (l : List ℚ) : List ℚ := List.zipWith (fun a b => b - a) l l.tail

/-- Division that records the division-by-zero hazard of the source. -/
def safeDiv (a b : ℚ) : Option ℚ := if b = 0 then none else some (a / b)

/-- `np.mean` with its division made explicit. -/
def meanChecked (l : List ℚ) : Option ℚ := safeDiv l.sum (l.length : ℚ)

/-- One OHLCV candle (api/schemas.py); all numeric fields are exact rationals. -/
structure Candle where
  timestamp : ℤ
  open_ : ℚ
  high : ℚ
  low : ℚ
  close : ℚ
  volume : ℚ
  deriving DecidableEq, Repr

/-- The `macd` sub-dictionary produced by `calculate_macd`. -/
structure MacdData where
  macd : ℚ
  signal : ℚ
  histogram : ℚ
  deriving DecidableEq, Repr

/-- The `trend` values produced by `analyze_volume`. -/
inductive VolTrend
  | increasing
  | decreasing
  | stable
  deriving DecidableEq, Repr

/-- The `volume` sub-dictionary produced by `analyze_volume` (the short-input
fallback of the source omits the two averages; they are modelled as 0 there). -/
structure VolumeData where
  trend : VolTrend
  ratio : ℚ
  recent_average : ℚ
  overall_average : ℚ
  deriving DecidableEq, Repr

/-- The indicator dictionary produced by `IndicatorCalculator.calculate_all`:
EMA/SMA entries are present only when enough closes exist, hence `Option`. -/
structure Indicators where
  rsi : ℚ
  macd : MacdData
  ema9 : Option ℚ
  ema20 : Option ℚ
  ema50 : Option ℚ
  ema200 : Option ℚ
  sma20 : Option ℚ
  sma50 : Option ℚ
  sma200 : Option ℚ
  volume : VolumeData
  deriving DecidableEq, Repr

/-- Directional label used by both scorers and the fusion engine. -/
inductive Direction
  | bullish
  | bearish
  | neutral
  deriving DecidableEq, Repr

/-- A probability dictionary over the three directions. -/
structure Probs where
  bullish : ℚ
  bearish : ℚ
  neutral : ℚ
  deriving DecidableEq, Repr

/-- Look a direction up in a probability dictionary (`probs[direction]`). -/
def probOf (p : Probs) : Direction → ℚ
  | Direction.bullish => p.bullish
  | Direction.bearish => p.bearish
  | Direction.neutral => p.neutral

/-- Output of one scorer (`direction`, `confidence`, `probabilities`). -/
structure ScorerOutput where
  direction : Direction
  confidence : ℚ
  probs : Probs
  deriving DecidableEq, Repr

/-- The §3 data-model invariant on a scorer output: confidence in [0,100],
each probability in [0,1], probabilities summing to 1 within 1e-6. -/
def ScorerOutput.Valid (s : ScorerOutput) : Prop :=
  0 ≤ s.confidence ∧ s.confidence ≤ 100 ∧
  0 ≤ s.probs.bullish ∧ s.probs.bullish ≤ 1 ∧
  0 ≤ s.probs.bearish ∧ s.probs.bearish ≤ 1 ∧
  0 ≤ s.probs.neutral ∧ s.probs.neutral ≤ 1 ∧
  |s.probs.bullish + s.probs.bearish + s.probs.neutral - 1| ≤ 1 / 1000000

instance (s : ScorerOutput) : Decidable s.Valid := by
  unfold ScorerOutput.Valid
  infer_instance

/-- `IndicatorCalculator.calculate_rsi` (calculator.py lines 34-54). -/
def calculate_rsi (closes : List ℚ) (period : ℕ) : ℚ :=
  if closes.length < period + 1 then 50
  else
    let changes := diffs (closes.drop (closes.length - (period + 1)))
    let gains := changes.map fun c => if 0 < c then c else 0
    let losses := changes.map fun c => if c < 0 then -c else 0
    let avg_gain := meanQ gains
    let avg_loss := meanQ losses
    if avg_loss = 0 then 100
    else roundTo 2 (100 - 100 / (1 + avg_gain / avg_loss))

/-- The fixed neutral triple `_neutral_prediction` shared by both scorers. -/
def neutralPrediction : ScorerOutput :=
  ⟨Direction.neutral, 33, ⟨33 / 100, 33 / 100, 34 / 100⟩⟩

/-- The `momentum` of `PatchTSTPredictor._analyze_patterns` (lines 88-93):
relative change over the last (up to) 10 closes, guarded against a zero base. -/
def momentumA (candles : List Candle) : ℚ :=
  let recent_closes := (candles.drop (candles.length - 10)).map Candle.close
  if 2 ≤ recent_closes.length ∧ recent_closes.headD 0 ≠ 0 then
    (recent_closes.getLastD 0 - recent_closes.headD 0) / recent_closes.headD 0
  else 0

/-- Number of bullish candles (`close > open`) among the last five. -/
def bullishCount (candles : List Candle) : ℕ :=
  (candles.drop (candles.length - 5)).countP fun c => decide (c.open_ < c.close)

/-- The additive score accumulation of `_analyze_patterns` (lines 105-134),
as the pair (bullish_score, bearish_score). -/
def scoreContrib (momentum : ℚ) (bullish_count bearish_count : ℕ) (rsi hist : ℚ) :
    ℚ × ℚ :=
  let m : ℚ × ℚ :=
    if momentum > 1 / 100 then (25, 0)
    else if momentum < -(1 / 100) then (0, 25) else (0, 0)
  let r : ℚ × ℚ :=
    if rsi ≠ 0 ∧ rsi < 30 then (15, 0)
    else if rsi ≠ 0 ∧ rsi > 70 then (0, 15)
    else if rsi ≠ 0 then (if rsi > 50 then (5, 0) else (0, 5))
    else (0, 0)
  let h : ℚ × ℚ :=
    if hist > 0 then (10, 0) else if hist < 0 then (0, 10) else (0, 0)
  (m.1 + (bullish_count : ℚ) * 8 + r.1 + h.1,
   m.2 + (bearish_count : ℚ) * 8 + r.2 + h.2)

/-- Scorer A's (bullish_score, bearish_score) for a candle window. -/
def scoreA (candles : List Candle) (ind : Indicators) : ℚ × ℚ :=
  scoreContrib (momentumA candles) (bullishCount candles)
    ((candles.drop (candles.length - 5)).length - bullishCount candles)
    ind.rsi ind.macd.histogram

/-- `PatchTSTPredictor._analyze_patterns` (the whole of Scorer A): normalize the
scores with the fixed neutral baseline 20 and pick a direction. -/
def analyzePatterns (candles : List Candle) (ind : Indicators) : ScorerOutput :=
  if candles.length < 5 then neutralPrediction
  else
    let s := scoreA candles ind
    let total_score := s.1 + s.2 + 20
    let bullish_prob := s.1 / total_score
    let bearish_prob := s.2 / total_score
    let neutral_prob := 1 - bullish_prob - bearish_prob
    let probs : Probs := ⟨bullish_prob, bearish_prob, max neutral_prob (1 / 10)⟩
    if bullish_prob > bearish_prob ∧ bullish_prob > 4 / 10 then
      ⟨Direction.bullish, min (bullish_prob * 100) 90, probs⟩
    else if bearish_prob > bullish_prob ∧ bearish_prob > 4 / 10 then
      ⟨Direction.bearish, min (bearish_prob * 100) 90, probs⟩
    else
      ⟨Direction.neutral, min (neutral_prob * 100) 90, probs⟩

/-- The eight features of `LightGBMClassifier._extract_features`. -/
structure FeaturesB where
  rsi : ℚ
  macd_hist : ℚ
  ema_trend : ℚ
  volume_ratio : ℚ
  body_size : ℚ
  wick_ratio : ℚ
  momentum_5 : ℚ
  momentum_10 : ℚ
  deriving DecidableEq, Repr

/-- `LightGBMClassifier._extract_features` (lightgbm_classifier.py lines 57-96).
Python truthiness guards (`if ema_20`, `if avg_volume`, `if high_low`,
`if closes[-5]`, `if closes[0]`) become `≠ 0` tests; the empty-dictionary
test on `ema` is absorbed into `Option.getD` (both give 0 when absent). -/
def featuresB (candles : List Candle) (ind : Indicators) : FeaturesB :=
  let last_candle := candles.getLastD ⟨0, 0, 0, 0, 0, 0⟩
  let prev_candles :=
    if 10 ≤ candles.length then candles.drop (candles.length - 10) else candles
  let rsi := if ind.rsi ≠ 0 then ind.rsi / 100 else 1 / 2
  let macd_hist := ind.macd.histogram
  let ema_20 := ind.ema20.getD 0
  let close := last_candle.close
  let ema_trend := if ema_20 ≠ 0 then (close - ema_20) / ema_20 else 0
  let volumes := prev_candles.map Candle.volume
  let avg_volume := if volumes ≠ [] then meanQ volumes else 1
  let volume_ratio := if avg_volume ≠ 0 then last_candle.volume / avg_volume else 1
  let body_size := |close - last_candle.open_|
  let high_low := last_candle.high - last_candle.low
  let wick_ratio := if high_low ≠ 0 then (high_low - body_size) / high_low else 0
  let closes := prev_candles.map Candle.close
  let base5 := closes.getD (closes.length - 5) 0
  let momentum_5 :=
    if 5 ≤ closes.length ∧ base5 ≠ 0 then (closes.getLastD 0 - base5) / base5 else 0
  let momentum_10 :=
    if closes.headD 0 ≠ 0 then (closes.getLastD 0 - closes.headD 0) / closes.headD 0
    else 0
  ⟨rsi, macd_hist, ema_trend, volume_ratio, body_size, wick_ratio,
   momentum_5, momentum_10⟩

/-- The RSI signal rule of `_rule_based_prediction` (lines 114-122). -/
def signalsRsi (x : ℚ) : ℕ × ℕ :=
  if x < 3 / 10 then (2, 0)
  else if x > 7 / 10 then (0, 2)
  else if x > 1 / 2 then (1, 0) else (0, 1)

/-- The MACD signal rule (lines 124-128). -/
def signalsMacd (x : ℚ) : ℕ × ℕ :=
  if x > 0 then (1, 0) else if x < 0 then (0, 1) else (0, 0)

/-- The EMA-trend signal rule (lines 130-138). -/
def signalsTrend (x : ℚ) : ℕ × ℕ :=
  if x > 2 / 100 then (2, 0)
  else if x < -(2 / 100) then (0, 2)
  else if x > 0 then (1, 0) else (0, 1)

/-- The volume-confirmation signal rule (lines 140-146). -/
def signalsVolume (volume_ratio momentum_5 : ℚ) : ℕ × ℕ :=
  if volume_ratio > 12 / 10 then
    if momentum_5 > 0 then (1, 0) else if momentum_5 < 0 then (0, 1) else (0, 0)
  else (0, 0)

/-- The 5-period momentum signal rule (lines 148-152). -/
def signalsMom5 (x : ℚ) : ℕ × ℕ :=
  if x > 2 / 100 then (2, 0)
  else if x < -(2 / 100) then (0, 2) else (0, 0)

/-- The 10-period momentum signal rule (lines 154-157). -/
def signalsMom10 (x : ℚ) : ℕ × ℕ :=
  if x > 3 / 100 then (1, 0)
  else if x < -(3 / 100) then (0, 1) else (0, 0)

/-- The whole signal counting of `_rule_based_prediction` (lines 111-157), as
the pair (bullish_signals, bearish_signals). -/
def signalsB (f : FeaturesB) : ℕ × ℕ :=
  let r := signalsRsi f.rsi
  let m := signalsMacd f.macd_hist
  let t := signalsTrend f.ema_trend
  let v := signalsVolume f.volume_ratio f.momentum_5
  let m5 := signalsMom5 f.momentum_5
  let m10 := signalsMom10 f.momentum_10
  (r.1 + m.1 + t.1 + v.1 + m5.1 + m10.1, r.2 + m.2 + t.2 + v.2 + m5.2 + m10.2)

/-- `LightGBMClassifier._rule_based_prediction` (lines 98-185): normalize the
signal counts with the fixed neutral baseline 3 and pick a direction. -/
def ruleBasedPrediction (f : FeaturesB) : ScorerOutput :=
  let sig := signalsB f
  let total : ℚ := (sig.1 : ℚ) + (sig.2 : ℚ) + 3
  let bullish_prob := (sig.1 : ℚ) / total
  let bearish_prob := (sig.2 : ℚ) / total
  let neutral_prob := 1 - bullish_prob - bearish_prob
  let probs : Probs := ⟨bullish_prob, bearish_prob, max neutral_prob (1 / 10)⟩
  if bullish_prob > bearish_prob ∧ 4 ≤ sig.1 then
    ⟨Direction.bullish, min (bullish_prob * 100) 85, probs⟩
  else if bearish_prob > bullish_prob ∧ 4 ≤ sig.2 then
    ⟨Direction.bearish, min (bearish_prob * 100) 85, probs⟩
  else
    ⟨Direction.neutral, 50, probs⟩

/-- `LightGBMClassifier.predict` (the whole of Scorer B). -/
def lgbmPredict (candles : List Candle) (ind : Indicators) : ScorerOutput :=
  if candles.length < 5 then neutralPrediction
  else ruleBasedPrediction (featuresB candles ind)

/-- The internal result of the fusion branch of `HybridPredictor.predict`
(hybrid_decision.py lines 44-77), before the final cap/round formatting. -/
structure FusionCore where
  direction : Direction
  probs : Probs
  confidence : ℚ
  agreement : Bool
  deriving DecidableEq, Repr

/-- `HybridPredictor._weighted_average` with the fixed weights 0.6 / 0.4. -/
def weightedAverage (p1 p2 : Probs) : Probs :=
  let rb := p1.bullish * (6 / 10) + p2.bullish * (4 / 10)
  let rx := p1.bearish * (6 / 10) + p2.bearish * (4 / 10)
  let rn := p1.neutral * (6 / 10) + p2.neutral * (4 / 10)
  let total := rb + rx + rn
  ⟨rb / total, rx / total, rn / total⟩

/-- The agreement/disagreement policy of `HybridPredictor.predict`
(lines 44-77): everything up to the output formatting. -/
def fuseCore (t l : ScorerOutput) : FusionCore :=
  if t.direction = l.direction then
    let combined := weightedAverage t.probs l.probs
    ⟨t.direction, combined,
     max (t.confidence * (6 / 10) + l.confidence * (4 / 10))
       (probOf combined t.direction * 100), true⟩
  else if t.confidence > 70 ∧ t.confidence > l.confidence + 20 then
    ⟨t.direction, t.probs, t.confidence * (7 / 10), false⟩
  else if l.confidence > 70 ∧ l.confidence > t.confidence + 20 then
    ⟨l.direction, l.probs, l.confidence * (7 / 10), false⟩
  else
    ⟨Direction.neutral, ⟨33 / 100, 33 / 100, 34 / 100⟩, 40, false⟩

/-- The fused prediction dictionary returned by `HybridPredictor.predict`
(lines 79-88): probabilities in percent form, confidence capped and rounded. -/
structure FusedPrediction where
  direction : Direction
  confidence : ℚ
  probs : Probs
  model_agreement : Bool
  transformer_signal : Direction
  lgbm_signal : Direction
  deriving DecidableEq, Repr

/-- `HybridPredictor.predict` as a function of the two scorer outputs:
fuse, cap the confidence at 95, round to 1 decimal, express the
probabilities as percentages rounded to 1 decimal. -/
def hybridPredict (t l : ScorerOutput) : FusedPrediction :=
  let core := fuseCore t l
  ⟨core.direction, roundTo 1 (min core.confidence 95),
   ⟨roundTo 1 (core.probs.bullish * 100), roundTo 1 (core.probs.bearish * 100),
    roundTo 1 (core.probs.neutral * 100)⟩,
   core.agreement, t.direction, l.direction⟩

/-- The discrete risk level of `assess_risk` (prediction.py lines 81-93). -/
inductive RiskLevel
  | low
  | medium
  | high
  deriving DecidableEq, Repr

/-- `assess_risk` (prediction.py lines 81-93); the `technical` argument of the
source is unused there. -/
def assess_risk (prediction : FusedPrediction) : RiskLevel :=
  if 70 ≤ prediction.confidence ∧ prediction.model_agreement = true then
    RiskLevel.low
  else if 50 ≤ prediction.confidence then RiskLevel.medium
  else RiskLevel.high

/-- The text of the low-confidence warning (prediction.py line 102). -/
def lowConfWarning : String :=
  "Low confidence prediction - consider waiting for clearer signals."

/-- The text of the model-disagreement warning (line 106). -/
def disagreementWarning : String :=
  "ML models show conflicting signals - increased uncertainty."

/-- The text of the RSI warning (line 112); `condition` is the f-string hole. -/
def rsiWarning (condition : String) : String :=
  "RSI indicates " ++ condition ++ " conditions - reversal possible."

/-- The text of the volume warning (line 117). -/
def volumeWarning : String :=
  "Low volume may not support directional move."

/-- `generate_warnings` (prediction.py lines 96-119). The source tests
`if rsi and (rsi > 70 or rsi < 30)`: the truthiness guard is `rsi ≠ 0`. -/
def generateWarnings (prediction : FusedPrediction) (technical : Indicators) :
    List String :=
  (if prediction.confidence < 50 then [lowConfWarning] else []) ++
  (if prediction.model_agreement = false then [disagreementWarning] else []) ++
  (if technical.rsi ≠ 0 ∧ (technical.rsi > 70 ∨ technical.rsi < 30) then
    [rsiWarning (if technical.rsi > 70 then "overbought" else "oversold")]
  else []) ++
  (if technical.volume.trend = VolTrend.decreasing ∧
      prediction.direction ≠ Direction.neutral then
    [volumeWarning]
  else [])

/-- `IndicatorCalculator._ema` (calculator.py lines 131-142) with every
division made explicit: the multiplier `2 / (period + 1)`, the seeding
simple mean, then the exponential fold. -/
def emaChecked (data : List ℚ) (period : ℕ) : Option ℚ :=
  if data.length < period then some (data.getLastD 0)
  else do
    let mult ← safeDiv 2 ((period : ℚ) + 1)
    let seed ← meanChecked (data.take period)
    some ((data.drop period).foldl (fun e price => price * mult + e * (1 - mult)) seed)

/-- `calculate_rsi` with every division made explicit. -/
def rsiChecked (closes : List ℚ) (period : ℕ) : Option ℚ :=
  if closes.length < period + 1 then some 50
  else do
    let changes := diffs (closes.drop (closes.length - (period + 1)))
    let gains := changes.map fun c => if 0 < c then c else 0
    let losses := changes.map fun c => if c < 0 then -c else 0
    let avg_gain ← meanChecked gains
    let avg_loss ← meanChecked losses
    if avg_loss = 0 then some 100
    else do
      let rs ← safeDiv avg_gain avg_loss
      let frac ← safeDiv 100 (1 + rs)
      some (roundTo 2 (100 - frac))

/-- `IndicatorCalculator.calculate_macd` (lines 56-83) with explicit divisions;
the signal line is the source's fixed-ratio approximation `macd_line * 0.9`. -/
def macdChecked (closes : List ℚ) : Option MacdData :=
  if closes.length < 26 + 9 then some ⟨0, 0, 0⟩
  else do
    let ema_fast ← emaChecked closes 12
    let ema_slow ← emaChecked closes 26
    let macd_line := ema_fast - ema_slow
    let signal_line := macd_line * (9 / 10)
    some ⟨roundTo 4 macd_line, roundTo 4 signal_line,
      roundTo 4 (macd_line - signal_line)⟩

/-- One entry of `calculate_emas` (lines 85-94): present only when the close
series is at least as long as the period. -/
def emaEntryChecked (closes : List ℚ) (period : ℕ) : Option (Option ℚ) :=
  if period ≤ closes.length then do
    let v ← emaChecked closes period
    some (some (roundTo 4 v))
  else some none

/-- One entry of `calculate_smas` (lines 96-105). -/
def smaEntryChecked (closes : List ℚ) (period : ℕ) : Option (Option ℚ) :=
  if period ≤ closes.length then do
    let v ← meanChecked (closes.drop (closes.length - period))
    some (some (roundTo 4 v))
  else some none

/-- `IndicatorCalculator.analyze_volume` (lines 107-129) with explicit
divisions; the source guards the ratio with `if avg_vol > 0`. -/
def volumeChecked (volumes : List ℚ) : Option VolumeData :=
  if volumes.length < 5 then some ⟨VolTrend.stable, 1, 0, 0⟩
  else do
    let recent_vol ← meanChecked (volumes.drop (volumes.length - 5))
    let avg_vol ←
      if 20 ≤ volumes.length then meanChecked (volumes.drop (volumes.length - 20))
      else meanChecked volumes
    let ratio ← if avg_vol > 0 then safeDiv recent_vol avg_vol else some 1
    let trend :=
      if ratio > 12 / 10 then VolTrend.increasing
      else if ratio < 8 / 10 then VolTrend.decreasing
      else VolTrend.stable
    some ⟨trend, roundTo 2 ratio, roundTo 2 recent_vol, roundTo 2 avg_vol⟩

/-- `IndicatorCalculator.calculate_all` (lines 18-32) with explicit divisions.
The source returns the empty dictionary on an empty candle list; that path is
outside this model, hence `none` there. -/
def calcAllChecked (candles : List Candle) : Option Indicators :=
  if candles = [] then none
  else do
    let closes := candles.map Candle.close
    let volumes := candles.map Candle.volume
    let rsi ← rsiChecked closes 14
    let macd ← macdChecked closes
    let e9 ← emaEntryChecked closes 9
    let e20 ← emaEntryChecked closes 20
    let e50 ← emaEntryChecked closes 50
    let e200 ← emaEntryChecked closes 200
    let s20 ← smaEntryChecked closes 20
    let s50 ← smaEntryChecked closes 50
    let s200 ← smaEntryChecked closes 200
    let vol ← volumeChecked volumes
    some ⟨rsi, macd, e9, e20, e50, e200, s20, s50, s200, vol⟩

/-- The `momentum` of Scorer A with its (guarded) division made explicit. -/
def momentumChecked (candles : List Candle) : Option ℚ :=
  let recent_closes := (candles.drop (candles.length - 10)).map Candle.close
  if 2 ≤ recent_closes.length ∧ recent_closes.headD 0 ≠ 0 then
    safeDiv (recent_closes.getLastD 0 - recent_closes.headD 0)
      (recent_closes.headD 0)
  else some 0

/-- Scorer A with every division made explicit. -/
def analyzePatternsChecked (candles : List Candle) (ind : Indicators) :
    Option ScorerOutput :=
  if candles.length < 5 then some neutralPrediction
  else do
    let momentum ← momentumChecked candles
    let s := scoreContrib momentum (bullishCount candles)
      ((candles.drop (candles.length - 5)).length - bullishCount candles)
      ind.rsi ind.macd.histogram
    let total_score := s.1 + s.2 + 20
    let bullish_prob ← safeDiv s.1 total_score
    let bearish_prob ← safeDiv s.2 total_score
    let neutral_prob := 1 - bullish_prob - bearish_prob
    let probs : Probs := ⟨bullish_prob, bearish_prob, max neutral_prob (1 / 10)⟩
    if bullish_prob > bearish_prob ∧ bullish_prob > 4 / 10 then
      some ⟨Direction.bullish, min (bullish_prob * 100) 90, probs⟩
    else if bearish_prob > bullish_prob ∧ bearish_prob > 4 / 10 then
      some ⟨Direction.bearish, min (bearish_prob * 100) 90, probs⟩
    else
      some ⟨Direction.neutral, min (neutral_prob * 100) 90, probs⟩

/-- A division of the source that is syntactically guarded by a condition,
with its fallback value; `none` exactly when the division is reached with a
zero divisor. -/
def guardedDiv (cond : Prop) [Decidable cond] (a b alt : ℚ) : Option ℚ :=
  if cond then safeDiv a b else some alt

/-- A guarded `np.mean` of the source, with its fallback value. -/
def guardedMean (cond : Prop) [Decidable cond] (l : List ℚ) (alt : ℚ) :
    Option ℚ :=
  if cond then meanChecked l else some alt

/-- `_extract_features` of Scorer B with every division made explicit. -/
def featuresBChecked (candles : List Candle) (ind : Indicators) :
    Option FeaturesB := do
  let last_candle := candles.getLastD ⟨0, 0, 0, 0, 0, 0⟩
  let prev_candles :=
    if 10 ≤ candles.length then candles.drop (candles.length - 10) else candles
  let rsi ← guardedDiv (ind.rsi ≠ 0) ind.rsi 100 (1 / 2)
  let macd_hist := ind.macd.histogram
  let ema_20 := ind.ema20.getD 0
  let close := last_candle.close
  let ema_trend ← guardedDiv (ema_20 ≠ 0) (close - ema_20) ema_20 0
  let volumes := prev_candles.map Candle.volume
  let avg_volume ← guardedMean (volumes ≠ []) volumes 1
  let volume_ratio ← guardedDiv (avg_volume ≠ 0) last_candle.volume avg_volume 1
  let body_size := |close - last_candle.open_|
  let high_low := last_candle.high - last_candle.low
  let wick_ratio ← guardedDiv (high_low ≠ 0) (high_low - body_size) high_low 0
  let closes := prev_candles.map Candle.close
  let base5 := closes.getD (closes.length - 5) 0
  let momentum_5 ← guardedDiv (5 ≤ closes.length ∧ base5 ≠ 0)
    (closes.getLastD 0 - base5) base5 0
  let momentum_10 ← guardedDiv (closes.headD 0 ≠ 0)
    (closes.getLastD 0 - closes.headD 0) (closes.headD 0) 0
  some ⟨rsi, macd_hist, ema_trend, volume_ratio, body_size, wick_ratio,
    momentum_5, momentum_10⟩

/-- `_rule_based_prediction` with every division made explicit. -/
def ruleBasedChecked (f : FeaturesB) : Option ScorerOutput := do
  let sig := signalsB f
  let total : ℚ := (sig.1 : ℚ) + (sig.2 : ℚ) + 3
  let bullish_prob ← safeDiv (sig.1 : ℚ) total
  let bearish_prob ← safeDiv (sig.2 : ℚ) total
  let neutral_prob := 1 - bullish_prob - bearish_prob
  let probs : Probs := ⟨bullish_prob, bearish_prob, max neutral_prob (1 / 10)⟩
  if bullish_prob > bearish_prob ∧ 4 ≤ sig.1 then
    some ⟨Direction.bullish, min (bullish_prob * 100) 85, probs⟩
  else if bearish_prob > bullish_prob ∧ 4 ≤ sig.2 then
    some ⟨Direction.bearish, min (bearish_prob * 100) 85, probs⟩
  else
    some ⟨Direction.neutral, 50, probs⟩

/-- Scorer B with every division made explicit. -/
def lgbmPredictChecked (candles : List Candle) (ind : Indicators) :
    Option ScorerOutput :=
  if candles.length < 5 then some neutralPrediction
  else do
    let f ← featuresBChecked candles ind
    ruleBasedChecked f

/-- `_weighted_average` with its normalizing division made explicit. -/
def weightedAverageChecked (p1 p2 : Probs) : Option Probs := do
  let rb := p1.bullish * (6 / 10) + p2.bullish * (4 / 10)
  let rx := p1.bearish * (6 / 10) + p2.bearish * (4 / 10)
  let rn := p1.neutral * (6 / 10) + p2.neutral * (4 / 10)
  let total := rb + rx + rn
  let qb ← safeDiv rb total
  let qx ← safeDiv rx total
  let qn ← safeDiv rn total
  some ⟨qb, qx, qn⟩

/-- `HybridPredictor.predict` (given the two scorer outputs) with every
division made explicit. -/
def hybridPredictChecked (t l : ScorerOutput) : Option FusedPrediction := do
  let core ←
    if t.direction = l.direction then do
      let combined ← weightedAverageChecked t.probs l.probs
      some (FusionCore.mk t.direction combined
        (max (t.confidence * (6 / 10) + l.confidence * (4 / 10))
          (probOf combined t.direction * 100)) true)
    else if t.confidence > 70 ∧ t.confidence > l.confidence + 20 then
      some (FusionCore.mk t.direction t.probs (t.confidence * (7 / 10)) false)
    else if l.confidence > 70 ∧ l.confidence > t.confidence + 20 then
      some (FusionCore.mk l.direction l.probs (l.confidence * (7 / 10)) false)
    else
      some (FusionCore.mk Direction.neutral ⟨33 / 100, 33 / 100, 34 / 100⟩ 40 false)
  some ⟨core.direction, roundTo 1 (min core.confidence 95),
    ⟨roundTo 1 (core.probs.bullish * 100), roundTo 1 (core.probs.bearish * 100),
     roundTo 1 (core.probs.neutral * 100)⟩,
    core.agreement, t.direction, l.direction⟩

/-- The whole core pipeline of the `/predict` route (indicators, both scorers,
fusion, risk level, warnings) with every division made explicit. -/
def pipelineChecked (candles : List Candle) :
    Option (FusedPrediction × RiskLevel × List String) := do
  let ind ← calcAllChecked candles
  let t ← analyzePatternsChecked candles ind
  let l ← lgbmPredictChecked candles ind
  let fused ← hybridPredictChecked t l
  some (fused, assess_risk fused, generateWarnings fused ind)

/-! ### General lemmas about the rounding and mean models -/

theorem roundTo_le_roundTo (n : ℕ) {x y : ℚ} (h : x ≤ y) :
    roundTo n x ≤ roundTo n y := by
  unfold roundTo
  have h10 : (0 : ℚ) < 10 ^ n := by positivity
  have hr : round (x * 10 ^ n) ≤ round (y * 10 ^ n) := by
    rw [round_eq, round_eq]
    exact Int.floor_le_floor (by nlinarith)
  gcongr

theorem roundTo_zero (n : ℕ) : roundTo n 0 = 0 := by
  simp [roundTo]

theorem abs_roundTo_sub (n : ℕ) (x : ℚ) : |roundTo n x - x| ≤ 1 / (2 * 10 ^ n) := by
  have h10 : (0 : ℚ) < 10 ^ n := by positivity
  have h := abs_sub_round (x * 10 ^ n)
  have heq : roundTo n x - x
      = -((x * 10 ^ n - ((round (x * 10 ^ n) : ℤ) : ℚ)) / 10 ^ n) := by
    unfold roundTo
    field_simp
    try ring
  rw [heq, abs_neg, abs_div, abs_of_pos h10]
  calc |x * 10 ^ n - ((round (x * 10 ^ n) : ℤ) : ℚ)| / 10 ^ n
      ≤ 1 / 2 / 10 ^ n := by gcongr
    _ = 1 / (2 * 10 ^ n) := by ring

theorem meanQ_nonneg {l : List ℚ} (h : ∀ x ∈ l, 0 ≤ x) : 0 ≤ meanQ l :=
  div_nonneg (List.sum_nonneg h) (Nat.cast_nonneg _)

/-! ### The RSI of the indicator engine (claims C5, C6) -/

/-- C5: for every sequence of closes, the RSI value returned by the indicator
engine (period 14) lies in the interval [0, 100]. -/
theorem claim5_rsi_in_range (closes : List ℚ) :
    0 ≤ calculate_rsi closes 14 ∧ calculate_rsi closes 14 ≤ 100 := by
  by_cases h1 : closes.length < 14 + 1
  · simp only [calculate_rsi, if_pos h1]
    norm_num
  · simp only [calculate_rsi, if_neg h1]
    set changes := diffs (closes.drop (closes.length - (14 + 1))) with hchanges
    by_cases h2 : meanQ (changes.map fun c => if c < 0 then -c else 0) = 0
    · rw [if_pos h2]
      norm_num
    · rw [if_neg h2]
      have hg : 0 ≤ meanQ (changes.map fun c => if 0 < c then c else 0) := by
        refine meanQ_nonneg ?_
        intro x hx
        simp only [List.mem_map] at hx
        obtain ⟨c, _, rfl⟩ := hx
        split <;> linarith
      have hl : 0 ≤ meanQ (changes.map fun c => if c < 0 then -c else 0) := by
        refine meanQ_nonneg ?_
        intro x hx
        simp only [List.mem_map] at hx
        obtain ⟨c, _, rfl⟩ := hx
        split <;> linarith
      have hlpos : 0 < meanQ (changes.map fun c => if c < 0 then -c else 0) :=
        lt_of_le_of_ne hl (Ne.symm h2)
      set rs := meanQ (changes.map fun c => if 0 < c then c else 0) /
        meanQ (changes.map fun c => if c < 0 then -c else 0) with hrs
      have hrs0 : 0 ≤ rs := div_nonneg hg hl
      have hfrac_pos : 0 < 100 / (1 + rs) := by positivity
      have hfrac_le : 100 / (1 + rs) ≤ 100 := by
        rw [div_le_iff (by linarith)]
        nlinarith
      constructor
      · have := roundTo_le_roundTo 2 (show (0 : ℚ) ≤ 100 - 100 / (1 + rs) by linarith)
        rwa [roundTo_zero] at this
      · have := roundTo_le_roundTo 2 (show 100 - 100 / (1 + rs) ≤ (100 : ℚ) by linarith)
        have h100 : roundTo 2 (100 : ℚ) = 100 := by
          norm_num [roundTo, round_eq]
        rwa [h100] at this

/-- C6: a close series shorter than period + 1 = 15 elements yields the
neutral RSI fallback 50.0 exactly; in particular every 3-candle input does. -/
theorem claim6_rsi_fallback :
    (∀ closes : List ℚ, closes.length < 14 + 1 → calculate_rsi closes 14 = 50) ∧
    (∀ a b c : ℚ, calculate_rsi [a, b, c] 14 = 50) := by
  constructor
  · intro closes h
    simp only [calculate_rsi, if_pos h]
  · intro a b c
    simp only [calculate_rsi, List.length_cons, List.length_nil]
    norm_num

/-- Witness for C6 at the concrete input [1, 2, 3]. -/
theorem claim6_witness :
    ([(1 : ℚ), 2, 3].length < 14 + 1) ∧ calculate_rsi [(1 : ℚ), 2, 3] 14 = 50 :=
  ⟨by decide, claim6_rsi_fallback.1 [(1 : ℚ), 2, 3] (by decide)⟩

/-! ### The short-input fallback of both scorers (claim C7) -/

/-- C7: with fewer than 5 candles both scorers return the fixed neutral
triple: direction neutral, confidence 33, probabilities 0.33/0.33/0.34. -/
theorem claim7_short_input_neutral (candles : List Candle) (ind : Indicators)
    (h : candles.length < 5) :
    analyzePatterns candles ind
        = ⟨Direction.neutral, 33, ⟨33 / 100, 33 / 100, 34 / 100⟩⟩ ∧
    lgbmPredict candles ind
        = ⟨Direction.neutral, 33, ⟨33 / 100, 33 / 100, 34 / 100⟩⟩ := by
  constructor
  · simp only [analyzePatterns, if_pos h, neutralPrediction]
  · simp only [lgbmPredict, if_pos h, neutralPrediction]

/-- Witness for C7 at a concrete 3-candle input. -/
theorem claim7_witness :
    ([⟨0, 1, 2, 0, 1, 5⟩, ⟨1, 1, 2, 0, 2, 5⟩, ⟨2, 2, 3, 1, 1, 5⟩] :
        List Candle).length < 5 ∧
    analyzePatterns [⟨0, 1, 2, 0, 1, 5⟩, ⟨1, 1, 2, 0, 2, 5⟩, ⟨2, 2, 3, 1, 1, 5⟩]
        ⟨50, ⟨0, 0, 0⟩, none, none, none, none, none, none, none,
          ⟨VolTrend.stable, 1, 0, 0⟩⟩
        = ⟨Direction.neutral, 33, ⟨33 / 100, 33 / 100, 34 / 100⟩⟩ ∧
    lgbmPredict [⟨0, 1, 2, 0, 1, 5⟩, ⟨1, 1, 2, 0, 2, 5⟩, ⟨2, 2, 3, 1, 1, 5⟩]
        ⟨50, ⟨0, 0, 0⟩, none, none, none, none, none, none, none,
          ⟨VolTrend.stable, 1, 0, 0⟩⟩
        = ⟨Direction.neutral, 33, ⟨33 / 100, 33 / 100, 34 / 100⟩⟩ :=
  ⟨by decide,
   (claim7_short_input_neutral _ _ (by decide)).1,
   (claim7_short_input_neutral _ _ (by decide)).2⟩

/-! ### Structure of Scorer A's scores and probabilities -/

theorem scoreContrib_nonneg (m : ℚ) (bc sc : ℕ) (r h : ℚ) :
    0 ≤ (scoreContrib m bc sc r h).1 ∧ 0 ≤ (scoreContrib m bc sc r h).2 := by
  refine ⟨?_, ?_⟩ <;>
    (simp only [scoreContrib]; split_ifs <;> simp <;> positivity)

theorem scoreContrib_sum_le (m : ℚ) (bc sc : ℕ) (r h : ℚ) :
    (scoreContrib m bc sc r h).1 + (scoreContrib m bc sc r h).2
      ≤ ((bc : ℚ) + (sc : ℚ)) * 8 + 50 := by
  simp only [scoreContrib]
  split_ifs <;> simp <;> linarith

theorem length_drop_sub {α : Type} (l : List α) (n : ℕ) (h : n ≤ l.length) :
    (l.drop (l.length - n)).length = n := by
  rw [List.length_drop]
  omega

theorem bullishCount_le (candles : List Candle) (h : ¬ candles.length < 5) :
    bullishCount candles ≤ 5 := by
  have h1 : bullishCount candles ≤ (candles.drop (candles.length - 5)).length :=
    List.countP_le_length _
  rwa [length_drop_sub candles 5 (by omega)] at h1

theorem scoreA_nonneg (c : List Candle) (i : Indicators) :
    0 ≤ (scoreA c i).1 ∧ 0 ≤ (scoreA c i).2 :=
  scoreContrib_nonneg _ _ _ _ _

theorem scoreA_sum_le (c : List Candle) (i : Indicators) (h : ¬ c.length < 5) :
    (scoreA c i).1 + (scoreA c i).2 ≤ 90 := by
  have hb := bullishCount_le c h
  have hlen := length_drop_sub c 5 (by omega)
  have h1 := scoreContrib_sum_le (momentumA c) (bullishCount c)
    ((c.drop (c.length - 5)).length - bullishCount c) i.rsi i.macd.histogram
  unfold scoreA
  rw [hlen] at h1 ⊢
  have h2 : ((bullishCount c : ℚ) + ((5 - bullishCount c : ℕ) : ℚ)) = 5 := by
    push_cast [Nat.cast_sub hb]
    ring
  rw [h2] at h1
  linarith

/-- In the main branch of Scorer A: the reported probabilities are the two
score ratios and the neutral remainder 20 / total, the 0.1 floor never
binding; the raw neutral complement equals 20 / total as well. -/
theorem analyzePatterns_main (c : List Candle) (i : Indicators)
    (h : ¬ c.length < 5) :
    (analyzePatterns c i).probs.bullish
        = (scoreA c i).1 / ((scoreA c i).1 + (scoreA c i).2 + 20) ∧
    (analyzePatterns c i).probs.bearish
        = (scoreA c i).2 / ((scoreA c i).1 + (scoreA c i).2 + 20) ∧
    (analyzePatterns c i).probs.neutral
        = 20 / ((scoreA c i).1 + (scoreA c i).2 + 20) ∧
    1 / 10 < 20 / ((scoreA c i).1 + (scoreA c i).2 + 20) ∧
    1 - (scoreA c i).1 / ((scoreA c i).1 + (scoreA c i).2 + 20)
        - (scoreA c i).2 / ((scoreA c i).1 + (scoreA c i).2 + 20)
      = 20 / ((scoreA c i).1 + (scoreA c i).2 + 20) := by
  obtain ⟨hb0, hs0⟩ := scoreA_nonneg c i
  have hsum := scoreA_sum_le c i h
  have hT : (0 : ℚ) < (scoreA c i).1 + (scoreA c i).2 + 20 := by linarith
  have hraw : 1 - (scoreA c i).1 / ((scoreA c i).1 + (scoreA c i).2 + 20)
      - (scoreA c i).2 / ((scoreA c i).1 + (scoreA c i).2 + 20)
      = 20 / ((scoreA c i).1 + (scoreA c i).2 + 20) := by
    field_simp
    ring
  have hfloor : (1 : ℚ) / 10 < 20 / ((scoreA c i).1 + (scoreA c i).2 + 20) := by
    rw [div_lt_div_iff (by norm_num) hT]
    linarith
  have hmax : max (1 - (scoreA c i).1 / ((scoreA c i).1 + (scoreA c i).2 + 20)
      - (scoreA c i).2 / ((scoreA c i).1 + (scoreA c i).2 + 20)) (1 / 10)
      = 20 / ((scoreA c i).1 + (scoreA c i).2 + 20) := by
    rw [hraw]
    exact max_eq_left (le_of_lt hfloor)
  simp only [analyzePatterns, if_neg h]
  split_ifs <;> exact ⟨rfl, rfl, hmax, hfloor, hraw⟩

theorem analyzePatterns_sum_one (c : List Candle) (i : Indicators) :
    (analyzePatterns c i).probs.bullish + (analyzePatterns c i).probs.bearish
      + (analyzePatterns c i).probs.neutral = 1 := by
  by_cases h : c.length < 5
  · simp only [analyzePatterns, if_pos h, neutralPrediction]
    norm_num
  · obtain ⟨h1, h2, h3, _, _⟩ := analyzePatterns_main c i h
    obtain ⟨hb0, hs0⟩ := scoreA_nonneg c i
    have hT : (0 : ℚ) < (scoreA c i).1 + (scoreA c i).2 + 20 := by linarith
    rw [h1, h2, h3]
    field_simp

theorem analyzePatterns_probs_mem (c : List Candle) (i : Indicators) :
    (0 ≤ (analyzePatterns c i).probs.bullish ∧
      (analyzePatterns c i).probs.bullish ≤ 1) ∧
    (0 ≤ (analyzePatterns c i).probs.bearish ∧
      (analyzePatterns c i).probs.bearish ≤ 1) ∧
    (0 ≤ (analyzePatterns c i).probs.neutral ∧
      (analyzePatterns c i).probs.neutral ≤ 1) := by
  by_cases h : c.length < 5
  · simp only [analyzePatterns, if_pos h, neutralPrediction]
    norm_num
  · obtain ⟨h1, h2, h3, _, _⟩ := analyzePatterns_main c i h
    obtain ⟨hb0, hs0⟩ := scoreA_nonneg c i
    have hT : (0 : ℚ) < (scoreA c i).1 + (scoreA c i).2 + 20 := by linarith
    rw [h1, h2, h3]
    refine ⟨⟨by positivity, ?_⟩, ⟨by positivity, ?_⟩, ⟨by positivity, ?_⟩⟩ <;>
      (rw [div_le_one hT]; linarith)

/-! ### Structure of Scorer B's signals and probabilities -/

theorem signalsRsi_le (x : ℚ) : (signalsRsi x).1 + (signalsRsi x).2 ≤ 2 := by
  unfold signalsRsi
  split_ifs <;> norm_num

theorem signalsMacd_le (x : ℚ) : (signalsMacd x).1 + (signalsMacd x).2 ≤ 1 := by
  unfold signalsMacd
  split_ifs <;> norm_num

theorem signalsTrend_le (x : ℚ) : (signalsTrend x).1 + (signalsTrend x).2 ≤ 2 := by
  unfold signalsTrend
  split_ifs <;> norm_num

theorem signalsVolume_le (v m : ℚ) :
    (signalsVolume v m).1 + (signalsVolume v m).2 ≤ 1 := by
  unfold signalsVolume
  split_ifs <;> norm_num

theorem signalsMom5_le (x : ℚ) : (signalsMom5 x).1 + (signalsMom5 x).2 ≤ 2 := by
  unfold signalsMom5
  split_ifs <;> norm_num

theorem signalsMom10_le (x : ℚ) : (signalsMom10 x).1 + (signalsMom10 x).2 ≤ 1 := by
  unfold signalsMom10
  split_ifs <;> norm_num

theorem signalsB_sum_le (f : FeaturesB) : (signalsB f).1 + (signalsB f).2 ≤ 9 := by
  have h1 := signalsRsi_le f.rsi
  have h2 := signalsMacd_le f.macd_hist
  have h3 := signalsTrend_le f.ema_trend
  have h4 := signalsVolume_le f.volume_ratio f.momentum_5
  have h5 := signalsMom5_le f.momentum_5
  have h6 := signalsMom10_le f.momentum_10
  simp only [signalsB]
  omega

/-- In every branch of Scorer B: the reported probabilities are the two
signal ratios and the neutral remainder 3 / total, the 0.1 floor never
binding; the raw neutral complement equals 3 / total as well. -/
theorem ruleBased_main (f : FeaturesB) :
    (ruleBasedPrediction f).probs.bullish
        = ((signalsB f).1 : ℚ) / (((signalsB f).1 : ℚ) + ((signalsB f).2 : ℚ) + 3) ∧
    (ruleBasedPrediction f).probs.bearish
        = ((signalsB f).2 : ℚ) / (((signalsB f).1 : ℚ) + ((signalsB f).2 : ℚ) + 3) ∧
    (ruleBasedPrediction f).probs.neutral
        = 3 / (((signalsB f).1 : ℚ) + ((signalsB f).2 : ℚ) + 3) ∧
    1 / 10 < 3 / (((signalsB f).1 : ℚ) + ((signalsB f).2 : ℚ) + 3) ∧
    1 - ((signalsB f).1 : ℚ) / (((signalsB f).1 : ℚ) + ((signalsB f).2 : ℚ) + 3)
        - ((signalsB f).2 : ℚ) / (((signalsB f).1 : ℚ) + ((signalsB f).2 : ℚ) + 3)
      = 3 / (((signalsB f).1 : ℚ) + ((signalsB f).2 : ℚ) + 3) := by
  have hb0 : (0 : ℚ) ≤ ((signalsB f).1 : ℚ) := Nat.cast_nonneg _
  have hs0 : (0 : ℚ) ≤ ((signalsB f).2 : ℚ) := Nat.cast_nonneg _
  have hsum : ((signalsB f).1 : ℚ) + ((signalsB f).2 : ℚ) ≤ 9 := by
    exact_mod_cast signalsB_sum_le f
  have hT : (0 : ℚ) < ((signalsB f).1 : ℚ) + ((signalsB f).2 : ℚ) + 3 := by linarith
  have hraw : 1 - ((signalsB f).1 : ℚ) / (((signalsB f).1 : ℚ) + ((signalsB f).2 : ℚ) + 3)
      - ((signalsB f).2 : ℚ) / (((signalsB f).1 : ℚ) + ((signalsB f).2 : ℚ) + 3)
      = 3 / (((signalsB f).1 : ℚ) + ((signalsB f).2 : ℚ) + 3) := by
    field_simp
    ring
  have hfloor : (1 : ℚ) / 10
      < 3 / (((signalsB f).1 : ℚ) + ((signalsB f).2 : ℚ) + 3) := by
    rw [div_lt_div_iff (by norm_num) hT]
    linarith
  have hmax : max (1 - ((signalsB f).1 : ℚ) / (((signalsB f).1 : ℚ) + ((signalsB f).2 : ℚ) + 3)
      - ((signalsB f).2 : ℚ) / (((signalsB f).1 : ℚ) + ((signalsB f).2 : ℚ) + 3)) (1 / 10)
      = 3 / (((signalsB f).1 : ℚ) + ((signalsB f).2 : ℚ) + 3) := by
    rw [hraw]
    exact max_eq_left (le_of_lt hfloor)
  simp only [ruleBasedPrediction]
  split_ifs <;> exact ⟨rfl, rfl, hmax, hfloor, hraw⟩

theorem lgbmPredict_sum_one (c : List Candle) (i : Indicators) :
    (lgbmPredict c i).probs.bullish + (lgbmPredict c i).probs.bearish
      + (lgbmPredict c i).probs.neutral = 1 := by
  by_cases h : c.length < 5
  · simp only [lgbmPredict, if_pos h, neutralPrediction]
    norm_num
  · simp only [lgbmPredict, if_neg h]
    obtain ⟨h1, h2, h3, _, _⟩ := ruleBased_main (featuresB c i)
    set f := featuresB c i
    have hT : (0 : ℚ) < ((signalsB f).1 : ℚ) + ((signalsB f).2 : ℚ) + 3 := by
      have hb0 : (0 : ℚ) ≤ ((signalsB f).1 : ℚ) := Nat.cast_nonneg _
      have hs0 : (0 : ℚ) ≤ ((signalsB f).2 : ℚ) := Nat.cast_nonneg _
      linarith
    rw [h1, h2, h3]
    field_simp

theorem lgbmPredict_probs_mem (c : List Candle) (i : Indicators) :
    (0 ≤ (lgbmPredict c i).probs.bullish ∧ (lgbmPredict c i).probs.bullish ≤ 1) ∧
    (0 ≤ (lgbmPredict c i).probs.bearish ∧ (lgbmPredict c i).probs.bearish ≤ 1) ∧
    (0 ≤ (lgbmPredict c i).probs.neutral ∧ (lgbmPredict c i).probs.neutral ≤ 1) := by
  by_cases h : c.length < 5
  · simp only [lgbmPredict, if_pos h, neutralPrediction]
    norm_num
  · simp only [lgbmPredict, if_neg h]
    obtain ⟨h1, h2, h3, _, _⟩ := ruleBased_main (featuresB c i)
    set f := featuresB c i
    have hb0 : (0 : ℚ) ≤ ((signalsB f).1 : ℚ) := Nat.cast_nonneg _
    have hs0 : (0 : ℚ) ≤ ((signalsB f).2 : ℚ) := Nat.cast_nonneg _
    have hT : (0 : ℚ) < ((signalsB f).1 : ℚ) + ((signalsB f).2 : ℚ) + 3 := by linarith
    rw [h1, h2, h3]
    refine ⟨⟨by positivity, ?_⟩, ⟨by positivity, ?_⟩, ⟨by positivity, ?_⟩⟩ <;>
      (rw [div_le_one hT]; linarith)

/-! ### Claims C4 and C10: the scorer probability invariants -/

/-- C4: for every candle sequence and indicator set, each scorer's reported
probabilities (the neutral one carrying the 0.1 floor) sum to 1.0 within
1e-6 — in fact exactly — and each component lies in [0, 1]. -/
theorem claim4_scorer_prob_invariant (candles : List Candle) (ind : Indicators) :
    (|(analyzePatterns candles ind).probs.bullish
        + (analyzePatterns candles ind).probs.bearish
        + (analyzePatterns candles ind).probs.neutral - 1| ≤ 1 / 1000000 ∧
      (0 ≤ (analyzePatterns candles ind).probs.bullish ∧
        (analyzePatterns candles ind).probs.bullish ≤ 1) ∧
      (0 ≤ (analyzePatterns candles ind).probs.bearish ∧
        (analyzePatterns candles ind).probs.bearish ≤ 1) ∧
      (0 ≤ (analyzePatterns candles ind).probs.neutral ∧
        (analyzePatterns candles ind).probs.neutral ≤ 1)) ∧
    (|(lgbmPredict candles ind).probs.bullish
        + (lgbmPredict candles ind).probs.bearish
        + (lgbmPredict candles ind).probs.neutral - 1| ≤ 1 / 1000000 ∧
      (0 ≤ (lgbmPredict candles ind).probs.bullish ∧
        (lgbmPredict candles ind).probs.bullish ≤ 1) ∧
      (0 ≤ (lgbmPredict candles ind).probs.bearish ∧
        (lgbmPredict candles ind).probs.bearish ≤ 1) ∧
      (0 ≤ (lgbmPredict candles ind).probs.neutral ∧
        (lgbmPredict candles ind).probs.neutral ≤ 1)) := by
  refine ⟨⟨?_, analyzePatterns_probs_mem candles ind⟩,
    ⟨?_, lgbmPredict_probs_mem candles ind⟩⟩
  · rw [analyzePatterns_sum_one candles ind]
    norm_num
  · rw [lgbmPredict_sum_one candles ind]
    norm_num

/-- C10: with at least 5 candles the raw neutral probability of Scorer A is
20 / (bullish_score + bearish_score + 20) with the scores summing to at most
90, that of Scorer B is 3 / (bullish_signals + bearish_signals + 3) with the
signals summing to at most 9, both strictly above the 0.1 floor, so the
reported neutral value equals the raw one and the three reported
probabilities sum exactly to 1. -/
theorem claim10_neutral_floor_never_binds (candles : List Candle)
    (ind : Indicators) (h : 5 ≤ candles.length) :
    ((scoreA candles ind).1 + (scoreA candles ind).2 ≤ 90 ∧
      (analyzePatterns candles ind).probs.neutral
        = 20 / ((scoreA candles ind).1 + (scoreA candles ind).2 + 20) ∧
      1 / 10 < (analyzePatterns candles ind).probs.neutral ∧
      max (1 - (analyzePatterns candles ind).probs.bullish
          - (analyzePatterns candles ind).probs.bearish) (1 / 10)
        = 1 - (analyzePatterns candles ind).probs.bullish
          - (analyzePatterns candles ind).probs.bearish ∧
      (analyzePatterns candles ind).probs.bullish
        + (analyzePatterns candles ind).probs.bearish
        + (analyzePatterns candles ind).probs.neutral = 1) ∧
    (((signalsB (featuresB candles ind)).1 : ℚ)
        + ((signalsB (featuresB candles ind)).2 : ℚ) ≤ 9 ∧
      (lgbmPredict candles ind).probs.neutral
        = 3 / (((signalsB (featuresB candles ind)).1 : ℚ)
            + ((signalsB (featuresB candles ind)).2 : ℚ) + 3) ∧
      1 / 10 < (lgbmPredict candles ind).probs.neutral ∧
      max (1 - (lgbmPredict candles ind).probs.bullish
          - (lgbmPredict candles ind).probs.bearish) (1 / 10)
        = 1 - (lgbmPredict candles ind).probs.bullish
          - (lgbmPredict candles ind).probs.bearish ∧
      (lgbmPredict candles ind).probs.bullish
        + (lgbmPredict candles ind).probs.bearish
        + (lgbmPredict candles ind).probs.neutral = 1) := by
  have h5 : ¬ candles.length < 5 := by omega
  obtain ⟨a1, a2, a3, a4, a5⟩ := analyzePatterns_main candles ind h5
  have asum := analyzePatterns_sum_one candles ind
  have hA4 : 1 / 10 < (analyzePatterns candles ind).probs.neutral := by
    rw [a3]
    exact a4
  obtain ⟨b1, b2, b3, b4, b5⟩ := ruleBased_main (featuresB candles ind)
  have hlg : lgbmPredict candles ind
      = ruleBasedPrediction (featuresB candles ind) := by
    simp only [lgbmPredict, if_neg h5]
  have bsum := lgbmPredict_sum_one candles ind
  have hB4 : 1 / 10 < (lgbmPredict candles ind).probs.neutral := by
    rw [hlg, b3]
    exact b4
  have hsumle : ((signalsB (featuresB candles ind)).1 : ℚ)
      + ((signalsB (featuresB candles ind)).2 : ℚ) ≤ 9 := by
    exact_mod_cast signalsB_sum_le (featuresB candles ind)
  refine ⟨⟨scoreA_sum_le candles ind h5, a3, hA4,
      max_eq_left (by linarith), asum⟩,
    ⟨hsumle, by rw [hlg]; exact b3, hB4, max_eq_left (by linarith), bsum⟩⟩

/-- Witness for C10 at a concrete 5-candle window and indicator set. -/
theorem claim10_witness :
    5 ≤ ([⟨0, 99, 105, 98, 100, 10⟩, ⟨1, 100, 106, 99, 101, 10⟩,
        ⟨2, 101, 107, 100, 102, 10⟩, ⟨3, 102, 108, 101, 103, 10⟩,
        ⟨4, 103, 109, 102, 104, 10⟩] : List Candle).length ∧
    (scoreA [⟨0, 99, 105, 98, 100, 10⟩, ⟨1, 100, 106, 99, 101, 10⟩,
        ⟨2, 101, 107, 100, 102, 10⟩, ⟨3, 102, 108, 101, 103, 10⟩,
        ⟨4, 103, 109, 102, 104, 10⟩]
        ⟨50, ⟨0, 0, 0⟩, none, none, none, none, none, none, none,
          ⟨VolTrend.stable, 1, 0, 0⟩⟩).1
      + (scoreA [⟨0, 99, 105, 98, 100, 10⟩, ⟨1, 100, 106, 99, 101, 10⟩,
        ⟨2, 101, 107, 100, 102, 10⟩, ⟨3, 102, 108, 101, 103, 10⟩,
        ⟨4, 103, 109, 102, 104, 10⟩]
        ⟨50, ⟨0, 0, 0⟩, none, none, none, none, none, none, none,
          ⟨VolTrend.stable, 1, 0, 0⟩⟩).2 ≤ 90 ∧
    1 / 10 < (analyzePatterns [⟨0, 99, 105, 98, 100, 10⟩,
        ⟨1, 100, 106, 99, 101, 10⟩, ⟨2, 101, 107, 100, 102, 10⟩,
        ⟨3, 102, 108, 101, 103, 10⟩, ⟨4, 103, 109, 102, 104, 10⟩]
        ⟨50, ⟨0, 0, 0⟩, none, none, none, none, none, none, none,
          ⟨VolTrend.stable, 1, 0, 0⟩⟩).probs.neutral ∧
    1 / 10 < (lgbmPredict [⟨0, 99, 105, 98, 100, 10⟩,
        ⟨1, 100, 106, 99, 101, 10⟩, ⟨2, 101, 107, 100, 102, 10⟩,
        ⟨3, 102, 108, 101, 103, 10⟩, ⟨4, 103, 109, 102, 104, 10⟩]
        ⟨50, ⟨0, 0, 0⟩, none, none, none, none, none, none, none,
          ⟨VolTrend.stable, 1, 0, 0⟩⟩).probs.neutral :=
  ⟨by decide,
   (claim10_neutral_floor_never_binds _ _ (by decide)).1.1,
   (claim10_neutral_floor_never_binds _ _ (by decide)).1.2.2.1,
   (claim10_neutral_floor_never_binds _ _ (by decide)).2.2.2.1⟩

/-! ### Structure of the fusion engine -/

theorem fuseCore_agree (t l : ScorerOutput) (h : t.direction = l.direction) :
    fuseCore t l = ⟨t.direction, weightedAverage t.probs l.probs,
      max (t.confidence * (6 / 10) + l.confidence * (4 / 10))
        (probOf (weightedAverage t.probs l.probs) t.direction * 100), true⟩ := by
  simp only [fuseCore, if_pos h]

theorem fuseCore_adoptA (t l : ScorerOutput) (hne : ¬ t.direction = l.direction)
    (h1 : t.confidence > 70) (h2 : t.confidence > l.confidence + 20) :
    fuseCore t l = ⟨t.direction, t.probs, t.confidence * (7 / 10), false⟩ := by
  simp only [fuseCore, if_neg hne, if_pos (show t.confidence > 70 ∧
    t.confidence > l.confidence + 20 from ⟨h1, h2⟩)]

theorem fuseCore_adoptB (t l : ScorerOutput) (hne : ¬ t.direction = l.direction)
    (h1 : l.confidence > 70) (h2 : l.confidence > t.confidence + 20) :
    fuseCore t l = ⟨l.direction, l.probs, l.confidence * (7 / 10), false⟩ := by
  have hA : ¬ (t.confidence > 70 ∧ t.confidence > l.confidence + 20) := by
    rintro ⟨x1, x2⟩
    linarith
  simp only [fuseCore, if_neg hne, if_neg hA, if_pos (show l.confidence > 70 ∧
    l.confidence > t.confidence + 20 from ⟨h1, h2⟩)]

theorem fuseCore_neutral (t l : ScorerOutput) (hne : ¬ t.direction = l.direction)
    (hA : ¬ (t.confidence > 70 ∧ t.confidence > l.confidence + 20))
    (hB : ¬ (l.confidence > 70 ∧ l.confidence > t.confidence + 20)) :
    fuseCore t l
      = ⟨Direction.neutral, ⟨33 / 100, 33 / 100, 34 / 100⟩, 40, false⟩ := by
  simp only [fuseCore, if_neg hne, if_neg hA, if_neg hB]

theorem weightedAverage_sum_one (p1 p2 : Probs)
    (h : (p1.bullish * (6 / 10) + p2.bullish * (4 / 10))
        + (p1.bearish * (6 / 10) + p2.bearish * (4 / 10))
        + (p1.neutral * (6 / 10) + p2.neutral * (4 / 10)) ≠ 0) :
    (weightedAverage p1 p2).bullish + (weightedAverage p1 p2).bearish
      + (weightedAverage p1 p2).neutral = 1 := by
  simp only [weightedAverage]
  rw [div_add_div_same, div_add_div_same]
  exact div_self h

/-- The formatting step of `HybridPredictor.predict`: capping, rounding and
percent conversion preserve the [0, 95] confidence range and keep the
percentage sum within 0.2 of 100 whenever the internal sum is within 1e-6
of 1. -/
theorem hybridPredict_bounds_of (a b : ScorerOutput)
    (hconf : 0 ≤ (fuseCore a b).confidence)
    (hsum : |(fuseCore a b).probs.bullish + (fuseCore a b).probs.bearish
      + (fuseCore a b).probs.neutral - 1| ≤ 1 / 1000000) :
    (0 ≤ (hybridPredict a b).confidence ∧ (hybridPredict a b).confidence ≤ 95) ∧
    |(hybridPredict a b).probs.bullish + (hybridPredict a b).probs.bearish
      + (hybridPredict a b).probs.neutral - 100| ≤ 2 / 10 := by
  simp only [hybridPredict]
  refine ⟨⟨?_, ?_⟩, ?_⟩
  · have h0 : (0 : ℚ) ≤ min (fuseCore a b).confidence 95 :=
      le_min hconf (by norm_num)
    have := roundTo_le_roundTo 1 h0
    rwa [roundTo_zero] at this
  · have h1 : min (fuseCore a b).confidence 95 ≤ 95 := min_le_right _ _
    have h2 := roundTo_le_roundTo 1 h1
    have h95 : roundTo 1 (95 : ℚ) = 95 := by norm_num [roundTo, round_eq]
    rwa [h95] at h2
  · have e1 := abs_roundTo_sub 1 ((fuseCore a b).probs.bullish * 100)
    have e2 := abs_roundTo_sub 1 ((fuseCore a b).probs.bearish * 100)
    have e3 := abs_roundTo_sub 1 ((fuseCore a b).probs.neutral * 100)
    norm_num at e1 e2 e3
    obtain ⟨l1, r1⟩ := abs_le.mp e1
    obtain ⟨l2, r2⟩ := abs_le.mp e2
    obtain ⟨l3, r3⟩ := abs_le.mp e3
    obtain ⟨ls, rs⟩ := abs_le.mp hsum
    rw [abs_le]
    constructor <;> linarith

/-- C1: for every (valid) pair of scorer outputs, the fused prediction's
confidence lies in [0, 95] and is an integer number of tenths, and its
percent probabilities, each rounded to 1 decimal, sum to 100 within 0.2. -/
theorem claim1_fused_output_invariants (a b : ScorerOutput)
    (ha : a.Valid) (hb : b.Valid) :
    (0 ≤ (hybridPredict a b).confidence ∧ (hybridPredict a b).confidence ≤ 95) ∧
    (∃ k : ℤ, (hybridPredict a b).confidence * 10 = (k : ℚ)) ∧
    |(hybridPredict a b).probs.bullish + (hybridPredict a b).probs.bearish
      + (hybridPredict a b).probs.neutral - 100| ≤ 2 / 10 := by
  obtain ⟨hac0, hac1, hab0, hab1, hax0, hax1, han0, han1, has⟩ := ha
  obtain ⟨hbc0, hbc1, hbb0, hbb1, hbx0, hbx1, hbn0, hbn1, hbs⟩ := hb
  obtain ⟨hasl, hasr⟩ := abs_le.mp has
  obtain ⟨hbsl, hbsr⟩ := abs_le.mp hbs
  have hdec : ∃ k : ℤ, (hybridPredict a b).confidence * 10 = (k : ℚ) := by
    refine ⟨round (min (fuseCore a b).confidence 95 * 10 ^ 1), ?_⟩
    simp only [hybridPredict, roundTo]
    field_simp
  have hconf : 0 ≤ (fuseCore a b).confidence := by
    by_cases hd : a.direction = b.direction
    · rw [fuseCore_agree a b hd]
      have : 0 ≤ a.confidence * (6 / 10) + b.confidence * (4 / 10) := by linarith
      exact le_max_of_le_left this
    · by_cases hA : a.confidence > 70 ∧ a.confidence > b.confidence + 20
      · rw [fuseCore_adoptA a b hd hA.1 hA.2]
        linarith
      · by_cases hB : b.confidence > 70 ∧ b.confidence > a.confidence + 20
        · rw [fuseCore_adoptB a b hd hB.1 hB.2]
          linarith
        · rw [fuseCore_neutral a b hd hA hB]
          norm_num
  have hsum : |(fuseCore a b).probs.bullish + (fuseCore a b).probs.bearish
      + (fuseCore a b).probs.neutral - 1| ≤ 1 / 1000000 := by
    by_cases hd : a.direction = b.direction
    · rw [fuseCore_agree a b hd]
      have htot : (a.probs.bullish * (6 / 10) + b.probs.bullish * (4 / 10))
          + (a.probs.bearish * (6 / 10) + b.probs.bearish * (4 / 10))
          + (a.probs.neutral * (6 / 10) + b.probs.neutral * (4 / 10)) ≠ 0 := by
        intro hzero
        nlinarith
      rw [weightedAverage_sum_one a.probs b.probs htot]
      norm_num
    · by_cases hA : a.confidence > 70 ∧ a.confidence > b.confidence + 20
      · rw [fuseCore_adoptA a b hd hA.1 hA.2]
        exact has
      · by_cases hB : b.confidence > 70 ∧ b.confidence > a.confidence + 20
        · rw [fuseCore_adoptB a b hd hB.1 hB.2]
          exact hbs
        · rw [fuseCore_neutral a b hd hA hB]
          norm_num
  obtain ⟨hc, hs⟩ := hybridPredict_bounds_of a b hconf hsum
  exact ⟨hc, hdec, hs⟩

/-- Witness for C1 at a concrete pair of valid scorer outputs. -/
theorem claim1_witness :
    (ScorerOutput.mk Direction.bullish 80 ⟨1 / 2, 3 / 10, 1 / 5⟩).Valid ∧
    (ScorerOutput.mk Direction.bullish 60 ⟨2 / 5, 3 / 10, 3 / 10⟩).Valid ∧
    ((0 ≤ (hybridPredict ⟨Direction.bullish, 80, ⟨1 / 2, 3 / 10, 1 / 5⟩⟩
        ⟨Direction.bullish, 60, ⟨2 / 5, 3 / 10, 3 / 10⟩⟩).confidence ∧
      (hybridPredict ⟨Direction.bullish, 80, ⟨1 / 2, 3 / 10, 1 / 5⟩⟩
        ⟨Direction.bullish, 60, ⟨2 / 5, 3 / 10, 3 / 10⟩⟩).confidence ≤ 95) ∧
    (∃ k : ℤ, (hybridPredict ⟨Direction.bullish, 80, ⟨1 / 2, 3 / 10, 1 / 5⟩⟩
        ⟨Direction.bullish, 60, ⟨2 / 5, 3 / 10, 3 / 10⟩⟩).confidence * 10 = (k : ℚ)) ∧
    |(hybridPredict ⟨Direction.bullish, 80, ⟨1 / 2, 3 / 10, 1 / 5⟩⟩
        ⟨Direction.bullish, 60, ⟨2 / 5, 3 / 10, 3 / 10⟩⟩).probs.bullish
      + (hybridPredict ⟨Direction.bullish, 80, ⟨1 / 2, 3 / 10, 1 / 5⟩⟩
        ⟨Direction.bullish, 60, ⟨2 / 5, 3 / 10, 3 / 10⟩⟩).probs.bearish
      + (hybridPredict ⟨Direction.bullish, 80, ⟨1 / 2, 3 / 10, 1 / 5⟩⟩
        ⟨Direction.bullish, 60, ⟨2 / 5, 3 / 10, 3 / 10⟩⟩).probs.neutral - 100|
      ≤ 2 / 10) := by
  have h1 : (ScorerOutput.mk Direction.bullish 80 ⟨1 / 2, 3 / 10, 1 / 5⟩).Valid := by
    unfold ScorerOutput.Valid
    norm_num
  have h2 : (ScorerOutput.mk Direction.bullish 60 ⟨2 / 5, 3 / 10, 3 / 10⟩).Valid := by
    unfold ScorerOutput.Valid
    norm_num
  exact ⟨h1, h2, claim1_fused_output_invariants _ _ h1 h2⟩

/-- C2: the disagreement policy — adopt the sufficiently-more-confident
scorer's direction and probabilities at 0.7 of its confidence, symmetrically
for either scorer; otherwise force neutral with the fixed 0.33/0.33/0.34
triple at confidence 40. A bullish at 80 versus B bearish at 50 fuses to
bullish with (final, rounded) confidence 56.0. -/
theorem claim2_disagreement_policy :
    (∀ a b : ScorerOutput, a.direction ≠ b.direction → a.confidence > 70 →
      a.confidence > b.confidence + 20 →
      (fuseCore a b).direction = a.direction ∧ (fuseCore a b).probs = a.probs ∧
      (fuseCore a b).confidence = a.confidence * (7 / 10) ∧
      (hybridPredict a b).direction = a.direction) ∧
    (∀ a b : ScorerOutput, a.direction ≠ b.direction → b.confidence > 70 →
      b.confidence > a.confidence + 20 →
      (fuseCore a b).direction = b.direction ∧ (fuseCore a b).probs = b.probs ∧
      (fuseCore a b).confidence = b.confidence * (7 / 10) ∧
      (hybridPredict a b).direction = b.direction) ∧
    (∀ a b : ScorerOutput, a.direction ≠ b.direction →
      ¬ (a.confidence > 70 ∧ a.confidence > b.confidence + 20) →
      ¬ (b.confidence > 70 ∧ b.confidence > a.confidence + 20) →
      (fuseCore a b).direction = Direction.neutral ∧
      (fuseCore a b).probs = ⟨33 / 100, 33 / 100, 34 / 100⟩ ∧
      (fuseCore a b).confidence = 40 ∧
      (hybridPredict a b).direction = Direction.neutral) ∧
    (∀ pa pb : Probs,
      (hybridPredict ⟨Direction.bullish, 80, pa⟩
        ⟨Direction.bearish, 50, pb⟩).direction = Direction.bullish ∧
      (hybridPredict ⟨Direction.bullish, 80, pa⟩
        ⟨Direction.bearish, 50, pb⟩).confidence = 56) := by
  refine ⟨?_, ?_, ?_, ?_⟩
  · intro a b hne h1 h2
    have hcore := fuseCore_adoptA a b hne h1 h2
    exact ⟨by rw [hcore], by rw [hcore], by rw [hcore],
      by simp only [hybridPredict]; rw [hcore]⟩
  · intro a b hne h1 h2
    have hcore := fuseCore_adoptB a b hne h1 h2
    exact ⟨by rw [hcore], by rw [hcore], by rw [hcore],
      by simp only [hybridPredict]; rw [hcore]⟩
  · intro a b hne hA hB
    have hcore := fuseCore_neutral a b hne hA hB
    exact ⟨by rw [hcore], by rw [hcore], by rw [hcore],
      by simp only [hybridPredict]; rw [hcore]⟩
  · intro pa pb
    have hne : (ScorerOutput.mk Direction.bullish 80 pa).direction
        ≠ (ScorerOutput.mk Direction.bearish 50 pb).direction := by
      simp
    have hcore := fuseCore_adoptA ⟨Direction.bullish, 80, pa⟩
      ⟨Direction.bearish, 50, pb⟩ hne (by norm_num) (by norm_num)
    refine ⟨by simp only [hybridPredict]; rw [hcore], ?_⟩
    simp only [hybridPredict]
    rw [hcore]
    norm_num [roundTo, round_eq]

/-- Witness for C2: the adopt-A branch at a concrete disagreeing pair. -/
theorem claim2_witness :
    (fuseCore ⟨Direction.bullish, 80, ⟨1 / 2, 1 / 4, 1 / 4⟩⟩
        ⟨Direction.bearish, 50, ⟨1 / 4, 1 / 2, 1 / 4⟩⟩).direction
      = Direction.bullish ∧
    (fuseCore ⟨Direction.bullish, 80, ⟨1 / 2, 1 / 4, 1 / 4⟩⟩
        ⟨Direction.bearish, 50, ⟨1 / 4, 1 / 2, 1 / 4⟩⟩).probs
      = ⟨1 / 2, 1 / 4, 1 / 4⟩ ∧
    (fuseCore ⟨Direction.bullish, 80, ⟨1 / 2, 1 / 4, 1 / 4⟩⟩
        ⟨Direction.bearish, 50, ⟨1 / 4, 1 / 2, 1 / 4⟩⟩).confidence
      = 80 * (7 / 10) ∧
    (hybridPredict ⟨Direction.bullish, 80, ⟨1 / 2, 1 / 4, 1 / 4⟩⟩
        ⟨Direction.bearish, 50, ⟨1 / 4, 1 / 2, 1 / 4⟩⟩).direction
      = Direction.bullish :=
  claim2_disagreement_policy.1 ⟨Direction.bullish, 80, ⟨1 / 2, 1 / 4, 1 / 4⟩⟩
    ⟨Direction.bearish, 50, ⟨1 / 4, 1 / 2, 1 / 4⟩⟩
    (by simp) (by norm_num) (by norm_num)

/-- C3: the agreement policy — same direction, model_agreement true,
probabilities the 0.6/0.4 weighted averages renormalized to sum to 1, and
pre-cap confidence the maximum of the weighted confidence blend and the
fused probability of the chosen direction times 100. -/
theorem claim3_agreement_fusion (a b : ScorerOutput) (ha : a.Valid)
    (hb : b.Valid) (hd : a.direction = b.direction) :
    (hybridPredict a b).direction = a.direction ∧
    (hybridPredict a b).model_agreement = true ∧
    (fuseCore a b).probs.bullish
      = (a.probs.bullish * (6 / 10) + b.probs.bullish * (4 / 10))
        / ((a.probs.bullish * (6 / 10) + b.probs.bullish * (4 / 10))
          + (a.probs.bearish * (6 / 10) + b.probs.bearish * (4 / 10))
          + (a.probs.neutral * (6 / 10) + b.probs.neutral * (4 / 10))) ∧
    (fuseCore a b).probs.bearish
      = (a.probs.bearish * (6 / 10) + b.probs.bearish * (4 / 10))
        / ((a.probs.bullish * (6 / 10) + b.probs.bullish * (4 / 10))
          + (a.probs.bearish * (6 / 10) + b.probs.bearish * (4 / 10))
          + (a.probs.neutral * (6 / 10) + b.probs.neutral * (4 / 10))) ∧
    (fuseCore a b).probs.neutral
      = (a.probs.neutral * (6 / 10) + b.probs.neutral * (4 / 10))
        / ((a.probs.bullish * (6 / 10) + b.probs.bullish * (4 / 10))
          + (a.probs.bearish * (6 / 10) + b.probs.bearish * (4 / 10))
          + (a.probs.neutral * (6 / 10) + b.probs.neutral * (4 / 10))) ∧
    (fuseCore a b).probs.bullish + (fuseCore a b).probs.bearish
      + (fuseCore a b).probs.neutral = 1 ∧
    (fuseCore a b).confidence
      = max (a.confidence * (6 / 10) + b.confidence * (4 / 10))
          (probOf (fuseCore a b).probs a.direction * 100) := by
  obtain ⟨hac0, hac1, hab0, hab1, hax0, hax1, han0, han1, has⟩ := ha
  obtain ⟨hbc0, hbc1, hbb0, hbb1, hbx0, hbx1, hbn0, hbn1, hbs⟩ := hb
  obtain ⟨hasl, hasr⟩ := abs_le.mp has
  obtain ⟨hbsl, hbsr⟩ := abs_le.mp hbs
  have hcore := fuseCore_agree a b hd
  have htot : (a.probs.bullish * (6 / 10) + b.probs.bullish * (4 / 10))
      + (a.probs.bearish * (6 / 10) + b.probs.bearish * (4 / 10))
      + (a.probs.neutral * (6 / 10) + b.probs.neutral * (4 / 10)) ≠ 0 := by
    intro hzero
    nlinarith
  refine ⟨by simp only [hybridPredict, hcore], by simp only [hybridPredict, hcore],
    ?_, ?_, ?_, ?_, ?_⟩
  · rw [hcore]
    simp only [weightedAverage]
  · rw [hcore]
    simp only [weightedAverage]
  · rw [hcore]
    simp only [weightedAverage]
  · rw [hcore]
    exact weightedAverage_sum_one a.probs b.probs htot
  · rw [hcore]

/-- Witness for C3 at a concrete pair of agreeing valid scorer outputs. -/
theorem claim3_witness :
    (ScorerOutput.mk Direction.bearish 70 ⟨1 / 5, 3 / 5, 1 / 5⟩).Valid ∧
    (ScorerOutput.mk Direction.bearish 55 ⟨3 / 10, 1 / 2, 1 / 5⟩).Valid ∧
    (ScorerOutput.mk Direction.bearish 70 ⟨1 / 5, 3 / 5, 1 / 5⟩).direction
      = (ScorerOutput.mk Direction.bearish 55 ⟨3 / 10, 1 / 2, 1 / 5⟩).direction ∧
    ((hybridPredict ⟨Direction.bearish, 70, ⟨1 / 5, 3 / 5, 1 / 5⟩⟩
        ⟨Direction.bearish, 55, ⟨3 / 10, 1 / 2, 1 / 5⟩⟩).direction
      = Direction.bearish ∧
    (hybridPredict ⟨Direction.bearish, 70, ⟨1 / 5, 3 / 5, 1 / 5⟩⟩
        ⟨Direction.bearish, 55, ⟨3 / 10, 1 / 2, 1 / 5⟩⟩).model_agreement = true ∧
    (fuseCore ⟨Direction.bearish, 70, ⟨1 / 5, 3 / 5, 1 / 5⟩⟩
        ⟨Direction.bearish, 55, ⟨3 / 10, 1 / 2, 1 / 5⟩⟩).probs.bullish
      + (fuseCore ⟨Direction.bearish, 70, ⟨1 / 5, 3 / 5, 1 / 5⟩⟩
        ⟨Direction.bearish, 55, ⟨3 / 10, 1 / 2, 1 / 5⟩⟩).probs.bearish
      + (fuseCore ⟨Direction.bearish, 70, ⟨1 / 5, 3 / 5, 1 / 5⟩⟩
        ⟨Direction.bearish, 55, ⟨3 / 10, 1 / 2, 1 / 5⟩⟩).probs.neutral = 1) := by
  have h1 : (ScorerOutput.mk Direction.bearish 70 ⟨1 / 5, 3 / 5, 1 / 5⟩).Valid := by
    unfold ScorerOutput.Valid
    norm_num
  have h2 : (ScorerOutput.mk Direction.bearish 55 ⟨3 / 10, 1 / 2, 1 / 5⟩).Valid := by
    unfold ScorerOutput.Valid
    norm_num
  have h3 := claim3_agreement_fusion _ _ h1 h2 rfl
  exact ⟨h1, h2, rfl, h3.1, h3.2.1, h3.2.2.2.2.2.1⟩

/-! ### Claim C8: the warnings of the risk assessor -/

/-- Counterexample to C8 as stated: with `rsi = 0` (< 30, so the claim demands
an oversold notice) the source's truthiness guard `if rsi and (...)` suppresses
the RSI warning — here the warning list is empty. An RSI of exactly 0 is
reachable: 15 strictly falling closes give `calculate_rsi = 0`. -/
theorem claim8_counterexample :
    (Indicators.mk 0 ⟨0, 0, 0⟩ none none none none none none none
        ⟨VolTrend.stable, 1, 0, 0⟩).rsi < 30 ∧
    calculate_rsi [100, 99, 98, 97, 96, 95, 94, 93, 92, 91, 90, 89, 88, 87, 86]
        14 = 0 ∧
    generateWarnings
        ⟨Direction.bullish, 60, ⟨50, 30, 20⟩, true, Direction.bullish,
          Direction.bullish⟩
        ⟨0, ⟨0, 0, 0⟩, none, none, none, none, none, none, none,
          ⟨VolTrend.stable, 1, 0, 0⟩⟩ = [] := by
  refine ⟨by norm_num, ?_, ?_⟩
  · norm_num [calculate_rsi, diffs, meanQ, roundTo, round_eq, List.zipWith]
  · norm_num [generateWarnings]
    rintro ⟨⟩

/-- C8, amended: each notice appears exactly under its source condition — the
RSI notice needs `rsi ≠ 0` on top of the claimed `rsi > 70 ∨ rsi < 30` — and
the warning list is in the fixed order low-confidence, disagreement, RSI,
volume. -/
theorem claim8_warnings_content_and_order (p : FusedPrediction)
    (t : Indicators) :
    (lowConfWarning ∈ generateWarnings p t ↔ p.confidence < 50) ∧
    (disagreementWarning ∈ generateWarnings p t ↔ p.model_agreement = false) ∧
    (rsiWarning "overbought" ∈ generateWarnings p t ↔ t.rsi ≠ 0 ∧ t.rsi > 70) ∧
    (rsiWarning "oversold" ∈ generateWarnings p t ↔ t.rsi ≠ 0 ∧ t.rsi < 30) ∧
    (volumeWarning ∈ generateWarnings p t ↔
      t.volume.trend = VolTrend.decreasing ∧ p.direction ≠ Direction.neutral) ∧
    (generateWarnings p t).Sublist
      [lowConfWarning, disagreementWarning,
        rsiWarning (if t.rsi > 70 then "overbought" else "oversold"),
        volumeWarning] := by
  refine ⟨?_, ?_, ?_, ?_, ?_, ?_⟩ <;>
    (simp only [generateWarnings]
     split_ifs <;>
       simp_all [lowConfWarning, disagreementWarning, rsiWarning,
         volumeWarning] <;>
       try linarith)

/-! ### Claim C9: the checked pipeline never divides by zero -/

theorem safeDiv_eq (a b : ℚ) (h : b ≠ 0) : safeDiv a b = some (a / b) :=
  if_neg h

theorem meanChecked_eq (l : List ℚ) (h : l ≠ []) :
    meanChecked l = some (meanQ l) := by
  unfold meanChecked meanQ
  refine safeDiv_eq _ _ ?_
  intro h0
  exact h (List.length_eq_zero.mp (by exact_mod_cast h0))

theorem diffs_length (l : List ℚ) : (diffs l).length = l.length - 1 := by
  simp only [diffs, List.length_zipWith, List.length_tail]
  omega

theorem momentumChecked_eq (candles : List Candle) :
    momentumChecked candles = some (momentumA candles) := by
  simp only [momentumChecked, momentumA, safeDiv]
  split_ifs with h1 h2
  · exact absurd h2 h1.2
  · rfl
  · rfl

theorem rsiChecked_eq (closes : List ℚ) :
    rsiChecked closes 14 = some (calculate_rsi closes 14) := by
  by_cases h1 : closes.length < 14 + 1
  · simp only [rsiChecked, calculate_rsi, if_pos h1]
  · have hw : (closes.drop (closes.length - (14 + 1))).length = 15 :=
      length_drop_sub _ _ (by omega)
    have hc : (diffs (closes.drop (closes.length - (14 + 1)))).length = 14 := by
      rw [diffs_length, hw]
    have hgne : ((diffs (closes.drop (closes.length - (14 + 1)))).map
        fun c => if 0 < c then c else 0) ≠ [] := by
      intro hnil
      have := congrArg List.length hnil
      simp only [List.length_map, hc, List.length_nil] at this
      omega
    have hlne : ((diffs (closes.drop (closes.length - (14 + 1)))).map
        fun c => if c < 0 then -c else 0) ≠ [] := by
      intro hnil
      have := congrArg List.length hnil
      simp only [List.length_map, hc, List.length_nil] at this
      omega
    have hg : 0 ≤ meanQ ((diffs (closes.drop (closes.length - (14 + 1)))).map
        fun c => if 0 < c then c else 0) := by
      refine meanQ_nonneg ?_
      intro x hx
      simp only [List.mem_map] at hx
      obtain ⟨c, _, rfl⟩ := hx
      split <;> linarith
    have hl : 0 ≤ meanQ ((diffs (closes.drop (closes.length - (14 + 1)))).map
        fun c => if c < 0 then -c else 0) := by
      refine meanQ_nonneg ?_
      intro x hx
      simp only [List.mem_map] at hx
      obtain ⟨c, _, rfl⟩ := hx
      split <;> linarith
    simp only [rsiChecked, calculate_rsi, if_neg h1]
    rw [meanChecked_eq _ hgne, meanChecked_eq _ hlne]
    simp only [Option.bind_eq_bind, Option.some_bind]
    split_ifs with h2
    · rfl
    · have hlpos : 0 < meanQ ((diffs (closes.drop (closes.length - (14 + 1)))).map
          fun c => if c < 0 then -c else 0) := lt_of_le_of_ne hl (Ne.symm h2)
      have hrs0 : 0 ≤ meanQ ((diffs (closes.drop (closes.length - (14 + 1)))).map
            fun c => if 0 < c then c else 0)
          / meanQ ((diffs (closes.drop (closes.length - (14 + 1)))).map
            fun c => if c < 0 then -c else 0) := div_nonneg hg hl
      rw [safeDiv_eq _ _ h2]
      simp only [Option.some_bind]
      rw [safeDiv_eq _ _ (by intro h0; nlinarith)]
      simp only [Option.some_bind]

theorem emaChecked_isSome (data : List ℚ) (period : ℕ) (h : 1 ≤ period) :
    ∃ v, emaChecked data period = some v := by
  unfold emaChecked
  split_ifs with h1
  · exact ⟨_, rfl⟩
  · rw [safeDiv_eq 2 ((period : ℚ) + 1) (by positivity)]
    have htake : data.take period ≠ [] := by
      intro hnil
      have := congrArg List.length hnil
      simp only [List.length_take, List.length_nil] at this
      omega
    rw [meanChecked_eq _ htake]
    exact ⟨_, rfl⟩

theorem macdChecked_isSome (closes : List ℚ) :
    ∃ v, macdChecked closes = some v := by
  unfold macdChecked
  split_ifs with h1
  · exact ⟨_, rfl⟩
  · obtain ⟨v1, hv1⟩ := emaChecked_isSome closes 12 (by norm_num)
    obtain ⟨v2, hv2⟩ := emaChecked_isSome closes 26 (by norm_num)
    rw [hv1, hv2]
    exact ⟨_, rfl⟩

theorem emaEntryChecked_isSome (closes : List ℚ) (period : ℕ) (h : 1 ≤ period) :
    ∃ v, emaEntryChecked closes period = some v := by
  unfold emaEntryChecked
  split_ifs with h1
  · obtain ⟨v, hv⟩ := emaChecked_isSome closes period h
    rw [hv]
    exact ⟨_, rfl⟩
  · exact ⟨_, rfl⟩

theorem smaEntryChecked_isSome (closes : List ℚ) (period : ℕ) (h : 1 ≤ period) :
    ∃ v, smaEntryChecked closes period = some v := by
  unfold smaEntryChecked
  split_ifs with h1
  · have hne : closes.drop (closes.length - period) ≠ [] := by
      intro hnil
      have := congrArg List.length hnil
      simp only [List.length_drop, List.length_nil] at this
      omega
    rw [meanChecked_eq _ hne]
    exact ⟨_, rfl⟩
  · exact ⟨_, rfl⟩

theorem volumeChecked_isSome (volumes : List ℚ) :
    ∃ v, volumeChecked volumes = some v := by
  by_cases h1 : volumes.length < 5
  · exact ⟨⟨VolTrend.stable, 1, 0, 0⟩, by simp only [volumeChecked, if_pos h1]⟩
  · have hrec : volumes.drop (volumes.length - 5) ≠ [] := by
      intro hnil
      have := congrArg List.length hnil
      simp only [List.length_drop, List.length_nil] at this
      omega
    simp only [volumeChecked, if_neg h1]
    rw [meanChecked_eq _ hrec]
    simp only [Option.bind_eq_bind, Option.some_bind]
    by_cases h2 : 20 ≤ volumes.length
    · have hne : volumes.drop (volumes.length - 20) ≠ [] := by
        intro hnil
        have := congrArg List.length hnil
        simp only [List.length_drop, List.length_nil] at this
        omega
      rw [if_pos h2, meanChecked_eq _ hne]
      simp only [Option.some_bind]
      by_cases h3 : meanQ (volumes.drop (volumes.length - 20)) > 0
      · rw [if_pos h3, safeDiv_eq _ _ (ne_of_gt h3)]
        exact ⟨_, rfl⟩
      · rw [if_neg h3]
        exact ⟨_, rfl⟩
    · have hne : volumes ≠ [] := by
        intro hnil
        rw [hnil] at h1
        simp at h1
      rw [if_neg h2, meanChecked_eq _ hne]
      simp only [Option.some_bind]
      by_cases h3 : meanQ volumes > 0
      · rw [if_pos h3, safeDiv_eq _ _ (ne_of_gt h3)]
        exact ⟨_, rfl⟩
      · rw [if_neg h3]
        exact ⟨_, rfl⟩

theorem calcAllChecked_isSome (candles : List Candle) (h : candles ≠ []) :
    ∃ ind, calcAllChecked candles = some ind := by
  simp only [calcAllChecked, if_neg h]
  rw [rsiChecked_eq (candles.map Candle.close)]
  obtain ⟨m, hm⟩ := macdChecked_isSome (candles.map Candle.close)
  obtain ⟨e9, he9⟩ := emaEntryChecked_isSome (candles.map Candle.close) 9 (by norm_num)
  obtain ⟨e20, he20⟩ := emaEntryChecked_isSome (candles.map Candle.close) 20 (by norm_num)
  obtain ⟨e50, he50⟩ := emaEntryChecked_isSome (candles.map Candle.close) 50 (by norm_num)
  obtain ⟨e200, he200⟩ := emaEntryChecked_isSome (candles.map Candle.close) 200 (by norm_num)
  obtain ⟨s20, hs20⟩ := smaEntryChecked_isSome (candles.map Candle.close) 20 (by norm_num)
  obtain ⟨s50, hs50⟩ := smaEntryChecked_isSome (candles.map Candle.close) 50 (by norm_num)
  obtain ⟨s200, hs200⟩ := smaEntryChecked_isSome (candles.map Candle.close) 200 (by norm_num)
  obtain ⟨v, hv⟩ := volumeChecked_isSome (candles.map Candle.volume)
  rw [hm, he9, he20, he50, he200, hs20, hs50, hs200, hv]
  exact ⟨_, rfl⟩

theorem guardedDiv_eq (cond : Prop) [Decidable cond] (a b alt : ℚ)
    (h : cond → b ≠ 0) :
    guardedDiv cond a b alt = some (if cond then a / b else alt) := by
  unfold guardedDiv
  split_ifs with hc
  · exact safeDiv_eq a b (h hc)
  · rfl

theorem guardedMean_eq (cond : Prop) [Decidable cond] (l : List ℚ) (alt : ℚ)
    (h : cond → l ≠ []) :
    guardedMean cond l alt = some (if cond then meanQ l else alt) := by
  unfold guardedMean
  split_ifs with hc
  · exact meanChecked_eq l (h hc)
  · rfl

theorem analyzePatternsChecked_eq (c : List Candle) (i : Indicators) :
    analyzePatternsChecked c i = some (analyzePatterns c i) := by
  by_cases h : c.length < 5
  · simp only [analyzePatternsChecked, analyzePatterns, if_pos h]
  · simp only [analyzePatternsChecked, analyzePatterns, if_neg h]
    rw [momentumChecked_eq]
    simp only [Option.bind_eq_bind, Option.some_bind]
    have hs : scoreA c i = scoreContrib (momentumA c) (bullishCount c)
        ((c.drop (c.length - 5)).length - bullishCount c)
        i.rsi i.macd.histogram := rfl
    rw [← hs]
    obtain ⟨hb0, hs0⟩ := scoreA_nonneg c i
    have htot : (scoreA c i).1 + (scoreA c i).2 + 20 ≠ 0 := by
      intro h0
      linarith
    rw [safeDiv_eq _ _ htot, safeDiv_eq _ _ htot]
    simp only [Option.some_bind]
    split_ifs <;> rfl

theorem featuresBChecked_eq (c : List Candle) (i : Indicators) :
    featuresBChecked c i = some (featuresB c i) := by
  simp only [featuresBChecked, featuresB]
  rw [guardedDiv_eq _ _ _ _ (fun _ => by norm_num)]
  simp only [Option.bind_eq_bind, Option.some_bind]
  rw [guardedDiv_eq _ _ _ _ id]
  simp only [Option.some_bind]
  rw [guardedMean_eq _ _ _ id]
  simp only [Option.some_bind]
  rw [guardedDiv_eq _ _ _ _ id]
  simp only [Option.some_bind]
  rw [guardedDiv_eq _ _ _ _ id]
  simp only [Option.some_bind]
  rw [guardedDiv_eq _ _ _ _ (fun hc => hc.2)]
  simp only [Option.some_bind]
  rw [guardedDiv_eq _ _ _ _ id]
  simp only [Option.some_bind]

theorem ruleBasedChecked_eq (f : FeaturesB) :
    ruleBasedChecked f = some (ruleBasedPrediction f) := by
  simp only [ruleBasedChecked, ruleBasedPrediction]
  have h1 : ((signalsB f).1 : ℚ) + ((signalsB f).2 : ℚ) + 3 ≠ 0 := by positivity
  rw [safeDiv_eq _ _ h1, safeDiv_eq _ _ h1]
  simp only [Option.bind_eq_bind, Option.some_bind]
  split_ifs <;> rfl

theorem lgbmPredictChecked_eq (c : List Candle) (i : Indicators) :
    lgbmPredictChecked c i = some (lgbmPredict c i) := by
  by_cases h : c.length < 5
  · simp only [lgbmPredictChecked, lgbmPredict, if_pos h]
  · simp only [lgbmPredictChecked, lgbmPredict, if_neg h]
    rw [featuresBChecked_eq]
    simp only [Option.bind_eq_bind, Option.some_bind]
    exact ruleBasedChecked_eq _

theorem hybridPredictChecked_eq (t l : ScorerOutput)
    (hst : t.probs.bullish + t.probs.bearish + t.probs.neutral = 1)
    (hsl : l.probs.bullish + l.probs.bearish + l.probs.neutral = 1) :
    hybridPredictChecked t l = some (hybridPredict t l) := by
  by_cases hd : t.direction = l.direction
  · simp only [hybridPredictChecked, hybridPredict, fuseCore,
      weightedAverageChecked, weightedAverage, if_pos hd]
    have htot : t.probs.bullish * (6 / 10) + l.probs.bullish * (4 / 10)
        + (t.probs.bearish * (6 / 10) + l.probs.bearish * (4 / 10))
        + (t.probs.neutral * (6 / 10) + l.probs.neutral * (4 / 10)) ≠ 0 := by
      intro h0
      have h1 : (1 : ℚ) = 0 := by linarith
      norm_num at h1
    rw [safeDiv_eq _ _ htot, safeDiv_eq _ _ htot, safeDiv_eq _ _ htot]
    simp only [Option.bind_eq_bind, Option.some_bind]
  · simp only [hybridPredictChecked, hybridPredict, fuseCore, if_neg hd]
    split_ifs <;> simp only [Option.bind_eq_bind, Option.some_bind]

/-- C9: on every nonempty well-formed candle list the whole core pipeline —
indicator computation, both scorers, fusion, risk level and warnings — runs
to completion with every division's divisor nonzero (the `Checked` pipeline,
in which each division of the source is explicit, returns a value). -/
theorem claim9_pipeline_total (candles : List Candle) (h : candles ≠ []) :
    (pipelineChecked candles).isSome := by
  obtain ⟨ind, hind⟩ := calcAllChecked_isSome candles h
  simp only [pipelineChecked]
  rw [hind]
  simp only [Option.bind_eq_bind, Option.some_bind]
  rw [analyzePatternsChecked_eq candles ind]
  simp only [Option.some_bind]
  rw [lgbmPredictChecked_eq candles ind]
  simp only [Option.some_bind]
  rw [hybridPredictChecked_eq _ _ (analyzePatterns_sum_one candles ind)
    (lgbmPredict_sum_one candles ind)]
  simp only [Option.some_bind, Option.isSome_some]

/-- Witness for C9 at the minimal 1-candle input. -/
theorem claim9_witness :
    ([⟨0, 1, 2, 0, 1, 5⟩] : List Candle) ≠ [] ∧
    (pipelineChecked [⟨0, 1, 2, 0, 1, 5⟩]).isSome :=
  ⟨by simp, claim9_pipeline_total _ (by simp)⟩

end StockTrend
